import Mathlib

/-!
# Verification of the cocktail-RAG query pipeline

Shallow embedding of the query-to-result pipeline of the coctail-mcp
repository (`src/services/rag_service.py`, `src/services/pinecone_service.py`)
and proofs of the specification claims about it.

Python dynamic values are modelled by the inductive type `PyVal`.
Python `dict`s are modelled as association lists in insertion order
(a Python dict always has distinct keys; the model does not enforce this,
but every claim is insensitive to it).  Python `float`s are modelled as
rationals; the textual representation of a float is abstracted by the
rational's representation.  Attribute-style objects are modelled by `obj`
carrying their attribute table and class name; the default `str()` of such
an object is abstracted as an angle-bracketed class tag.  Raised Python
exceptions are modelled by the `Except PyErr` monad, where `PyErr.rag`
stands for the taxonomy error `RAGError` and `PyErr.exc` for every other
exception (`ValueError`, `TypeError`, `PineconeError`, ...), carrying the
`str(e)` message.
-/

/-- A Python runtime value, as far as the pipeline observes it. -/
inductive PyVal where
  | none : PyVal
  | bool : Bool → PyVal
  | int : Int → PyVal
  | float : Rat → PyVal
  | str : String → PyVal
  | list : List PyVal → PyVal
  | tuple : List PyVal → PyVal
  | dict : List (PyVal × PyVal) → PyVal
  | obj : List (String × PyVal) → String → PyVal
deriving Repr

namespace PyVal

/-- Python `v is None`. -/
def isNone : PyVal → Bool
  | .none => true
  | _ => false

/-- Python `v == \x7b\x7d` (equality with the empty dict: only an empty
dict compares equal to it). -/
def isEmptyDict : PyVal → Bool
  | .dict [] => true
  | _ => false

/-- Python truthiness (`bool(v)`): `None`, `False`, zero, and empty
containers are falsy, everything else (including any object) is truthy. -/
def pyTruthy : PyVal → Bool
  | .none => false
  | .bool b => b
  | .int n => n ≠ 0
  | .float q => q ≠ 0
  | .str s => s ≠ ""
  | .list xs => !xs.isEmpty
  | .tuple xs => !xs.isEmpty
  | .dict kvs => !kvs.isEmpty
  | .obj _ _ => true

/-- Python `x or y`: `x` when truthy, else `y`. -/
def pyOr (x y : PyVal) : PyVal := if pyTruthy x then x else y

/-- Python `len(v)`: defined for sized values, a `TypeError` otherwise. -/
def pyLen : PyVal → Option Nat
  | .str s => some s.length
  | .list xs => some xs.length
  | .tuple xs => some xs.length
  | .dict kvs => some kvs.length
  | _ => Option.none

end PyVal

/-- Drop leading and trailing whitespace characters. -/
def stripChars (cs : List Char) : List Char :=
  ((cs.dropWhile Char.isWhitespace).reverse.dropWhile Char.isWhitespace).reverse

/-- Python `s.strip()` (with no argument): remove leading and trailing
whitespace. -/
def pyStrip (s : String) : String := ⟨stripChars s.data⟩

namespace PyVal

/-- The name of a value's Python type, as shown in error messages. -/
def pyTypeName : PyVal → String
  | .none => "NoneType"
  | .bool _ => "bool"
  | .int _ => "int"
  | .float _ => "float"
  | .str _ => "str"
  | .list _ => "list"
  | .tuple _ => "tuple"
  | .dict _ => "dict"
  | .obj _ cls => cls

end PyVal

mutual

/-- Python `repr(v)` for the modelled values (nested strings quoted,
containers rendered with their delimiters, objects by a class tag). -/
def pyRepr : PyVal → String
  | .none => "None"
  | .bool true => "True"
  | .bool false => "False"
  | .int n => toString n
  | .float q => toString q
  | .str s => "\x27" ++ s ++ "\x27"
  | .list xs => "[" ++ String.intercalate ", " (pyReprList xs) ++ "]"
  | .tuple xs => "(" ++ String.intercalate ", " (pyReprList xs) ++ ")"
  | .dict kvs => "\x7b" ++ String.intercalate ", " (pyReprPairs kvs) ++ "\x7d"
  | .obj _ cls => "<" ++ cls ++ " object>"

/-- The `repr` of each element of a list. -/
def pyReprList : List PyVal → List String
  | [] => []
  | x :: xs => pyRepr x :: pyReprList xs

/-- The rendering `repr(k): repr(v)` of each pair of a dict. -/
def pyReprPairs : List (PyVal × PyVal) → List String
  | [] => []
  | (k, v) :: rest => (pyRepr k ++ ": " ++ pyRepr v) :: pyReprPairs rest

end

/-- Python `str(v)`: identity on strings, `repr` on every other built-in
modelled here. -/
def pyStr : PyVal → String
  | .str s => s
  | v => pyRepr v

namespace PyVal

/-- Source `_serialize_value`: scalars pass through, everything else becomes its
string representation. -/
def serializeValue : PyVal → PyVal
  | .str s => .str s
  | .int n => .int n
  | .float q => .float q
  | .bool b => .bool b
  | v => .str (pyStr v)

end PyVal

mutual

/-- Source `_clean_metadata_dict`: recursively clean a metadata value.  Non-dict
input degrades to `{}` for `None` and to `_serialize_value` otherwise. -/
def cleanMetadataDict : PyVal → PyVal
  | .dict kvs => .dict (cleanPairs kvs)
  | .none => .dict []
  | v => PyVal.serializeValue v

/-- The loop body of `_clean_metadata_dict`: `None` values are skipped, the
rest are cleaned and kept unless the cleaned value is `None` or `{}`;
kept keys are coerced with `str(key)`. -/
def cleanPairs : List (PyVal × PyVal) → List (PyVal × PyVal)
  | [] => []
  | (k, v) :: rest =>
    if v.isNone then cleanPairs rest
    else
      let cv := cleanValue v
      if !cv.isNone && !cv.isEmptyDict then (.str (pyStr k), cv) :: cleanPairs rest
      else cleanPairs rest

/-- Source `_clean_value`: clean a single value for JSON serialization. -/
def cleanValue : PyVal → PyVal
  | .none => .none
  | .dict kvs => .dict (cleanPairs kvs)
  | .list xs => .list (cleanList xs)
  | .tuple xs => .list (cleanList xs)
  | v => PyVal.serializeValue v

/-- The list comprehension of `_clean_value`: drop `None` elements, clean
the rest, drop elements whose cleaned form is `None`. -/
def cleanList : List PyVal → List PyVal
  | [] => []
  | x :: rest =>
    if x.isNone then cleanList rest
    else
      let cx := cleanValue x
      if cx.isNone then cleanList rest else cx :: cleanList rest

end

/-! ## JSON safety and cleanliness predicates -/

/-- A value Python's `json.dumps` accepts as a dict key (it is coerced to a
JSON string): scalars and `None`; containers and objects raise `TypeError`. -/
def jsonKeySafe : PyVal → Bool
  | .none => true
  | .bool _ => true
  | .int _ => true
  | .float _ => true
  | .str _ => true
  | _ => false

mutual

/-- A value `json.dumps` serializes without raising: scalars, `None`,
lists/tuples of safe values, dicts with key-safe keys and safe values.
Foreign objects raise `TypeError`. -/
def jsonSafe : PyVal → Bool
  | .none => true
  | .bool _ => true
  | .int _ => true
  | .float _ => true
  | .str _ => true
  | .list xs => jsonSafeList xs
  | .tuple xs => jsonSafeList xs
  | .dict kvs => jsonSafePairs kvs
  | .obj _ _ => false

/-- All elements serialize. -/
def jsonSafeList : List PyVal → Bool
  | [] => true
  | x :: xs => jsonSafe x && jsonSafeList xs

/-- All keys are key-safe and all values serialize. -/
def jsonSafePairs : List (PyVal × PyVal) → Bool
  | [] => true
  | (k, v) :: rest => jsonKeySafe k && jsonSafe v && jsonSafePairs rest

end

mutual

/-- No `None` occurs anywhere inside the value (object attribute tables are
not inspected: the Sanitizer's outputs never contain objects). -/
def noneFree : PyVal → Bool
  | .none => false
  | .list xs => noneFreeList xs
  | .tuple xs => noneFreeList xs
  | .dict kvs => noneFreePairs kvs
  | _ => true

/-- No `None` in any element. -/
def noneFreeList : List PyVal → Bool
  | [] => true
  | x :: xs => noneFree x && noneFreeList xs

/-- No `None` in any key or value. -/
def noneFreePairs : List (PyVal × PyVal) → Bool
  | [] => true
  | (k, v) :: rest => noneFree k && noneFree v && noneFreePairs rest

end

/-- An empty container (empty mapping or empty sequence). -/
def PyVal.isEmptyContainer : PyVal → Bool
  | .dict [] => true
  | .list [] => true
  | .tuple [] => true
  | _ => false

mutual

/-- No empty mapping and no empty sequence occurs as a child (a dict value
or a sequence element) anywhere inside the value.  This is the "no empty
nested mapping/sequence present as a child" property the spec asserts of
the Sanitizer's output. -/
def emptyChildFree : PyVal → Bool
  | .list xs => emptyChildFreeList xs
  | .tuple xs => emptyChildFreeList xs
  | .dict kvs => emptyChildFreePairs kvs
  | _ => true

/-- No element is an empty container, recursively. -/
def emptyChildFreeList : List PyVal → Bool
  | [] => true
  | x :: xs => !x.isEmptyContainer && emptyChildFree x && emptyChildFreeList xs

/-- No value is an empty container, recursively. -/
def emptyChildFreePairs : List (PyVal × PyVal) → Bool
  | [] => true
  | (_, v) :: rest => !v.isEmptyContainer && emptyChildFree v && emptyChildFreePairs rest

end

mutual

/-- No mapping anywhere inside the value has an empty mapping as one of its
values.  This is the part of the "no empty child" property that the code
actually guarantees (the `cleaned_value != \x7b\x7d` filter). -/
def dictEmptyFree : PyVal → Bool
  | .list xs => dictEmptyFreeList xs
  | .tuple xs => dictEmptyFreeList xs
  | .dict kvs => dictEmptyFreePairs kvs
  | _ => true

/-- All elements satisfy `dictEmptyFree`. -/
def dictEmptyFreeList : List PyVal → Bool
  | [] => true
  | x :: xs => dictEmptyFree x && dictEmptyFreeList xs

/-- No value is an empty mapping, and all values satisfy `dictEmptyFree`. -/
def dictEmptyFreePairs : List (PyVal × PyVal) → Bool
  | [] => true
  | (_, v) :: rest => !v.isEmptyDict && dictEmptyFree v && dictEmptyFreePairs rest

end

/-! ## Python `float(...)` coercion

`float(x)` succeeds on floats, ints, bools and numeric-literal strings and
raises (`TypeError`/`ValueError`) otherwise.  String parsing models the
finite decimal literals (optional sign, digits with at most one dot, an
optional decimal exponent, surrounding whitespace); the non-finite literals
(`inf`, `nan`, underscore separators) are outside the model. -/

/-- Split a leading sign character: returns (negative?, rest). -/
def splitSign : List Char → Bool × List Char
  | '-' :: cs => (true, cs)
  | '+' :: cs => (false, cs)
  | cs => (false, cs)

/-- Split at the first exponent marker `e`/`E`, if any. -/
def splitExp : List Char → List Char × Option (List Char)
  | [] => ([], Option.none)
  | c :: cs =>
    if c = 'e' ∨ c = 'E' then ([], some cs)
    else
      let r := splitExp cs
      (c :: r.1, r.2)

/-- Split at the first dot, if any. -/
def splitDot : List Char → List Char × Option (List Char)
  | [] => ([], Option.none)
  | c :: cs =>
    if c = '.' then ([], some cs)
    else
      let r := splitDot cs
      (c :: r.1, r.2)

/-- All characters are decimal digits. -/
def allDigits (cs : List Char) : Bool := cs.all fun c => c.isDigit

/-- The natural number denoted by a digit string. -/
def digitsToNat (cs : List Char) : Nat := cs.foldl (fun a c => a * 10 + (c.toNat - 48)) 0

/-- Scale a mantissa by a signed decimal exponent. -/
def applyExp (m : Rat) (negE : Bool) (e : Nat) : Rat :=
  if negE then m / (10 : Rat) ^ e else m * (10 : Rat) ^ e

/-- Parse a Python float literal (after `str.strip`); `Option.none` models a
`ValueError`. -/
def parsePyFloat (s : String) : Option Rat :=
  let cs := stripChars s.data
  let p1 := splitSign cs
  let p2 := splitExp p1.2
  let p3 := splitDot p2.1
  let ip := p3.1
  let fp := (p3.2).getD []
  if ip.isEmpty && fp.isEmpty then Option.none
  else if !(allDigits ip && allDigits fp) then Option.none
  else
    let mval : Rat := (digitsToNat ip : Rat) + (digitsToNat fp : Rat) / (10 : Rat) ^ fp.length
    let signed := if p1.1 then -mval else mval
    match p2.2 with
    | Option.none => some signed
    | some ecs =>
      let q1 := splitSign ecs
      if q1.2.isEmpty || !(allDigits q1.2) then Option.none
      else some (applyExp signed q1.1 (digitsToNat q1.2))

/-- Python `float(v)`: `Option.none` models a raised
`TypeError`/`ValueError`. -/
def pyFloat : PyVal → Option Rat
  | .float q => some q
  | .int n => some (n : Rat)
  | .bool b => some (if b then 1 else 0)
  | .str s => parsePyFloat s
  | _ => Option.none

/-! ## Exceptions and attribute/key access -/

/-- A raised Python exception: `rag` is the taxonomy error `RAGError`,
`exc` any other exception class (`ValueError`, `TypeError`,
`PineconeError`, ...); both carry the `str(e)` message. -/
inductive PyErr where
  | rag : String → PyErr
  | exc : String → PyErr
deriving DecidableEq, Repr

/-- The message `str(e)` of an exception. -/
def PyErr.msg : PyErr → String
  | .rag m => m
  | .exc m => m

/-- Look up a name in an attribute table (first binding wins). -/
def lookupStr : List (String × PyVal) → String → Option PyVal
  | [], _ => Option.none
  | (k, v) :: rest, name => if k = name then some v else lookupStr rest name

/-- Python `d.get(name)` / `name in d` for a string key: only a string key
equal to `name` matches. -/
def dictGetStr : List (PyVal × PyVal) → String → Option PyVal
  | [], _ => Option.none
  | (PyVal.str s, v) :: rest, name => if s = name then some v else dictGetStr rest name
  | _ :: rest, name => dictGetStr rest name

/-! ## Result Processor (`rag_service.py`) -/

/-- Source `_extract_match_id`: prefer a non-`None` `id` attribute, fall back to a
non-`None` mapping key, coerce with `str`, default `""`. -/
def extractMatchId : PyVal → String
  | .obj attrs _ =>
    match lookupStr attrs "id" with
    | some v => if v.isNone then "" else pyStr v
    | Option.none => ""
  | .dict kvs =>
    match dictGetStr kvs "id" with
    | some v => if v.isNone then "" else pyStr v
    | Option.none => ""
  | _ => ""

/-- Source `_extract_match_score`: prefer a non-`None` `score` attribute, fall back
to a non-`None` mapping key, coerce with `float` (which may raise, modelled
by `Option.none`), default `0.0`. -/
def extractMatchScore : PyVal → Option Rat
  | .obj attrs _ =>
    match lookupStr attrs "score" with
    | some v => if v.isNone then some 0 else pyFloat v
    | Option.none => some 0
  | .dict kvs =>
    match dictGetStr kvs "score" with
    | some v => if v.isNone then some 0 else pyFloat v
    | Option.none => some 0
  | _ => some 0

/-- The `metadata = ...` selection of `_extract_and_clean_metadata`: prefer
a non-`None` `metadata` attribute, fall back to a non-`None` mapping key,
default to the empty dict. -/
def rawMetadata : PyVal → PyVal
  | .obj attrs _ =>
    match lookupStr attrs "metadata" with
    | some v => if v.isNone then .dict [] else v
    | Option.none => .dict []
  | .dict kvs =>
    match dictGetStr kvs "metadata" with
    | some v => if v.isNone then .dict [] else v
    | Option.none => .dict []
  | _ => .dict []

/-- Source `_extract_and_clean_metadata`: the selected raw metadata passed through
the Sanitizer. -/
def extractAndCleanMetadata (m : PyVal) : PyVal := cleanMetadataDict (rawMetadata m)

/-- Source `_process_single_match`: build the serializable
`\x7bid, score, metadata\x7d` record; `Option.none` models the raised
exception when the score does not coerce to float (the only fallible step).
The exception is caught by the caller and the match dropped. -/
def processSingleMatch (m : PyVal) : Option PyVal :=
  match extractMatchScore m with
  | Option.none => Option.none
  | some sc =>
    some (.dict [(.str "id", .str (extractMatchId m)),
                 (.str "score", .float sc),
                 (.str "metadata", extractAndCleanMetadata m)])

/-- Source `_extract_matches`: accept a `matches` attribute or a `"matches"`
mapping key (falsy values replaced by `[]` via `or`); any other shape
raises `RAGError` naming the value's type. -/
def extractMatches (results : PyVal) : Except PyErr PyVal :=
  match results with
  | .obj attrs cls =>
    match lookupStr attrs "matches" with
    | some v => .ok (PyVal.pyOr v (.list []))
    | Option.none => .error (.rag ("Unexpected results format: " ++ (PyVal.obj attrs cls).pyTypeName))
  | .dict kvs =>
    match dictGetStr kvs "matches" with
    | some v => .ok (PyVal.pyOr v (.list []))
    | Option.none => .error (.rag ("Unexpected results format: dict"))
  | v => .error (.rag ("Unexpected results format: " ++ v.pyTypeName))

/-- Python iteration (`for match in matches`): sequences yield elements,
strings yield their characters, dicts their keys; other values raise
`TypeError`. -/
def pyIterate : PyVal → Option (List PyVal)
  | .list xs => some xs
  | .tuple xs => some xs
  | .str s => some (s.data.map fun c => .str (String.singleton c))
  | .dict kvs => some (kvs.map fun p => p.1)
  | _ => Option.none

/-- The per-match loop of `_process_query_results`: failures are caught and
the match skipped. -/
def processMatchList : List PyVal → List PyVal
  | [] => []
  | m :: rest =>
    match processSingleMatch m with
    | some pm => pm :: processMatchList rest
    | Option.none => processMatchList rest

/-- Source `_validate_json_serialization` as a batch check: `json.dumps` succeeds
on the whole list. -/
def validateJsonSerialization (ms : List PyVal) : Bool := jsonSafeList ms

/-- Source `_process_query_results`: extract the match list, short-circuit when it
is falsy, process each match with per-match error isolation, and validate
that the batch serializes. -/
def processQueryResults (results : PyVal) : Except PyErr (List PyVal) :=
  match extractMatches results with
  | .error e => .error e
  | .ok m =>
    if m.pyTruthy = false then .ok []
    else
      match pyIterate m with
      | Option.none => .error (.exc "matches object is not iterable")
      | some xs =>
        let processed := processMatchList xs
        if validateJsonSerialization processed then .ok processed
        else .error (.rag "Failed to serialize result to JSON")

/-! ## Vector Search Gateway (`pinecone_service.py`) -/

/-- The `logger.debug` guard in `query_cocktails` evaluates
`len(result.matches)` whenever the result has a truthy `matches`
attribute; an unsized attribute then raises `TypeError` inside the `try`
block. -/
def matchesAttrLenFails (r : PyVal) : Bool :=
  match r with
  | .obj attrs _ =>
    match lookupStr attrs "matches" with
    | some v => v.pyTruthy && (v.pyLen).isNone
    | Option.none => false
  | _ => false

/-- The `try` block of `query_cocktails`: invoke the index provider
(modelled by the oracle `io`), evaluate the debug logging, and wrap any
exception in `PineconeError`. -/
def invokeIndexQuery (io : Int → PyVal → Except PyErr PyVal) (k : Int) (v : PyVal) :
    Except PyErr PyVal :=
  match io k v with
  | .error e => .error (.exc ("Cocktail query failed: " ++ e.msg))
  | .ok r =>
    if matchesAttrLenFails r then
      .error (.exc "Cocktail query failed: object of type has no len()")
    else .ok r

/-- Source `query_cocktails`: an empty (falsy) vector short-circuits to `None`;
`top_k ≤ 0` is reassigned to 5, then a value above 1000 is reassigned to
1000; finally the provider is invoked. -/
def queryCocktails (io : Int → PyVal → Except PyErr PyVal) (top_k : Int) (vector : PyVal) :
    Except PyErr PyVal :=
  if vector.pyTruthy = false then .ok .none
  else
    let k1 : Int := if top_k ≤ 0 then 5 else top_k
    let k2 : Int := if k1 > 1000 then 1000 else k1
    invokeIndexQuery io k2 vector

/-! ## Pipeline Orchestrator (`rag_service.py`) -/

/-- Source `_validate_query` on an actual string: empty or all-whitespace is
invalid. -/
def validateQueryFails (q : String) : Bool := q = "" || pyStrip q = ""

/-- Source `_create_query_embedding`: call the embedding gateway (oracle `eo`) on
the stripped query; `None` is failure; the success log evaluates
`len(embedding)`; every failure inside the `try` block (including the
inner `RAGError`) is re-wrapped as `RAGError`. -/
def createQueryEmbedding (eo : String → Except PyErr PyVal) (q : String) :
    Except PyErr PyVal :=
  let inner : Except PyErr PyVal :=
    match eo (pyStrip q) with
    | .error e => .error e
    | .ok v =>
      if v.isNone then .error (.rag "Failed to create embedding for query")
      else
        match v.pyLen with
        | some _ => .ok v
        | Option.none => .error (.exc "object of type has no len()")
  match inner with
  | .ok v => .ok v
  | .error e => .error (.rag ("Embedding creation failed: " ++ e.msg))

/-- Source `_query_vector_database`: call `query_cocktails`; a `None` result is
failure; every failure inside the `try` block is re-wrapped as
`RAGError`. -/
def queryVectorDatabase (io : Int → PyVal → Except PyErr PyVal) (emb : PyVal) (top_k : Int) :
    Except PyErr PyVal :=
  let inner : Except PyErr PyVal :=
    match queryCocktails io top_k emb with
    | .error e => .error e
    | .ok r => if r.isNone then .error (.rag "No results returned from vector database") else .ok r
  match inner with
  | .ok r => .ok r
  | .error e => .error (.rag ("Vector database query failed: " ++ e.msg))

/-- Source `run_cocktail_rag`: validate, embed, search, process; `RAGError`s are
re-raised unchanged and any other exception is wrapped as `RAGError`.  The
embedding and index providers are the oracles `eo` and `io`. -/
def runCocktailRag (eo : String → Except PyErr PyVal) (io : Int → PyVal → Except PyErr PyVal)
    (q : String) (top_k : Int) : Except PyErr PyVal :=
  let inner : Except PyErr PyVal :=
    if validateQueryFails q then .error (.rag "Query must be a non-empty string")
    else
      match createQueryEmbedding eo q with
      | .error e => .error e
      | .ok emb =>
        match queryVectorDatabase io emb top_k with
        | .error e => .error e
        | .ok res =>
          match processQueryResults res with
          | .error e => .error e
          | .ok ms => .ok (.list ms)
  match inner with
  | .ok v => .ok v
  | .error (.rag m) => .error (.rag m)
  | .error (.exc m) => .error (.rag ("RAG processing failed: " ++ m))

/-- A canonical output record: a dict with exactly the keys `id` (a
string), `score` (a float) and `metadata`, in that order. -/
def isCanonicalRecord (r : PyVal) : Prop :=
  ∃ i sc md, r = PyVal.dict [(.str "id", .str i), (.str "score", .float sc), (.str "metadata", md)]

/-! ## Concrete gateway oracles used by witnesses -/

/-- An embedding gateway returning a fixed 3-dimensional vector. -/
def eoVec : String → Except PyErr PyVal :=
  fun _ => .ok (.list [.float (1 / 10), .float (2 / 10), .float (3 / 10)])

/-- An embedding gateway returning `None` without raising. -/
def eoNone : String → Except PyErr PyVal := fun _ => .ok .none

/-- An index provider returning a response with one match. -/
def ioOneMatch : Int → PyVal → Except PyErr PyVal :=
  fun _ _ => .ok (.dict [(.str "matches",
    .list [.dict [(.str "id", .str "cocktail_1"), (.str "score", .float (95 / 100)),
                  (.str "metadata", .dict [(.str "name", .str "Mojito"),
                                           (.str "empty_field", .none)])]])])

/-- A raw match carrying only a mapping metadata (no id, no score). -/
def rmSample : PyVal := .dict [(.str "metadata", .dict [(.str "name", .str "Mojito")])]

/-- The canonical record `rmSample` processes to. -/
def pmSample : PyVal := .dict [(.str "id", .str ""), (.str "score", .float 0),
  (.str "metadata", .dict [(.str "name", .str "Mojito")])]

/-- Python `isinstance(v, dict)`. -/
def PyVal.isDict : PyVal → Bool
  | .dict _ => true
  | _ => false

/-- The attribute table of a value: objects expose their attributes; the
built-in values have none of the attributes this pipeline looks up
(`id`, `score`, `metadata`, `matches`). -/
def PyVal.attrTable : PyVal → List (String × PyVal)
  | .obj attrs _ => attrs
  | _ => []

/-! ## Helper lemmas about the Sanitizer -/

theorem pyStr_str (s : String) : pyStr (.str s) = s := rfl

theorem cleanValue_isNone (v : PyVal) : (cleanValue v).isNone = v.isNone := by
  cases v <;> simp [cleanValue, PyVal.serializeValue, PyVal.isNone]

mutual

theorem cleanValue_idem : (v : PyVal) → cleanValue (cleanValue v) = cleanValue v
  | .none => rfl
  | .bool _ => rfl
  | .int _ => rfl
  | .float _ => rfl
  | .str _ => rfl
  | .obj _ _ => rfl
  | .dict kvs => by
      simp [cleanValue, cleanPairs_idem kvs]
  | .list xs => by
      simp [cleanValue, cleanList_idem xs]
  | .tuple xs => by
      simp [cleanValue, cleanList_idem xs]

theorem cleanPairs_idem : (kvs : List (PyVal × PyVal)) → cleanPairs (cleanPairs kvs) = cleanPairs kvs
  | [] => rfl
  | (k, v) :: rest => by
      by_cases hv : v.isNone = true
      · simp [cleanPairs, hv, cleanPairs_idem rest]
      · by_cases hkeep : (!(cleanValue v).isNone && !(cleanValue v).isEmptyDict) = true
        · have hk := hkeep
          simp only [Bool.and_eq_true, Bool.not_eq_true'] at hk
          simp [cleanPairs, hv, hkeep, hk.1, hk.2, cleanValue_idem v, pyStr_str,
            cleanPairs_idem rest]
        · simp [cleanPairs, hv, hkeep, cleanPairs_idem rest]

theorem cleanList_idem : (xs : List PyVal) → cleanList (cleanList xs) = cleanList xs
  | [] => rfl
  | x :: rest => by
      by_cases hx : x.isNone = true
      · simp [cleanList, hx, cleanList_idem rest]
      · by_cases hcx : (cleanValue x).isNone = true
        · simp [cleanList, hx, hcx, cleanList_idem rest]
        · simp [cleanList, hx, hcx, cleanValue_idem x, cleanList_idem rest]

end

mutual

theorem jsonSafe_cleanValue : (v : PyVal) → jsonSafe (cleanValue v) = true
  | .none => rfl
  | .bool _ => rfl
  | .int _ => rfl
  | .float _ => rfl
  | .str _ => rfl
  | .obj _ _ => rfl
  | .dict kvs => by simp [cleanValue, jsonSafe, jsonSafePairs_cleanPairs kvs]
  | .list xs => by simp [cleanValue, jsonSafe, jsonSafeList_cleanList xs]
  | .tuple xs => by simp [cleanValue, jsonSafe, jsonSafeList_cleanList xs]

theorem jsonSafePairs_cleanPairs :
    (kvs : List (PyVal × PyVal)) → jsonSafePairs (cleanPairs kvs) = true
  | [] => rfl
  | (k, v) :: rest => by
      by_cases hv : v.isNone = true
      · simp [cleanPairs, hv, jsonSafePairs_cleanPairs rest]
      · by_cases hkeep : (!(cleanValue v).isNone && !(cleanValue v).isEmptyDict) = true
        · simp [cleanPairs, hv, hkeep, jsonSafePairs, jsonKeySafe, jsonSafe_cleanValue v,
            jsonSafePairs_cleanPairs rest]
        · simp [cleanPairs, hv, hkeep, jsonSafePairs_cleanPairs rest]

theorem jsonSafeList_cleanList : (xs : List PyVal) → jsonSafeList (cleanList xs) = true
  | [] => rfl
  | x :: rest => by
      by_cases hx : x.isNone = true
      · simp [cleanList, hx, jsonSafeList_cleanList rest]
      · by_cases hcx : (cleanValue x).isNone = true
        · simp [cleanList, hx, hcx, jsonSafeList_cleanList rest]
        · simp [cleanList, hx, hcx, jsonSafeList, jsonSafe_cleanValue x,
            jsonSafeList_cleanList rest]

end

mutual

theorem noneFree_cleanValue : (v : PyVal) → v.isNone = false → noneFree (cleanValue v) = true
  | .none, h => by simp [PyVal.isNone] at h
  | .bool _, _ => rfl
  | .int _, _ => rfl
  | .float _, _ => rfl
  | .str _, _ => rfl
  | .obj _ _, _ => rfl
  | .dict kvs, _ => by simp [cleanValue, noneFree, noneFreePairs_cleanPairs kvs]
  | .list xs, _ => by simp [cleanValue, noneFree, noneFreeList_cleanList xs]
  | .tuple xs, _ => by simp [cleanValue, noneFree, noneFreeList_cleanList xs]

theorem noneFreePairs_cleanPairs :
    (kvs : List (PyVal × PyVal)) → noneFreePairs (cleanPairs kvs) = true
  | [] => rfl
  | (k, v) :: rest => by
      by_cases hv : v.isNone = true
      · simp [cleanPairs, hv, noneFreePairs_cleanPairs rest]
      · have hv' : v.isNone = false := by simpa using hv
        by_cases hkeep : (!(cleanValue v).isNone && !(cleanValue v).isEmptyDict) = true
        · simp [cleanPairs, hv, hkeep, noneFreePairs, noneFree, noneFree_cleanValue v hv',
            noneFreePairs_cleanPairs rest]
        · simp [cleanPairs, hv, hkeep, noneFreePairs_cleanPairs rest]

theorem noneFreeList_cleanList : (xs : List PyVal) → noneFreeList (cleanList xs) = true
  | [] => rfl
  | x :: rest => by
      by_cases hx : x.isNone = true
      · simp [cleanList, hx, noneFreeList_cleanList rest]
      · have hx' : x.isNone = false := by simpa using hx
        by_cases hcx : (cleanValue x).isNone = true
        · simp [cleanList, hx, hcx, noneFreeList_cleanList rest]
        · simp [cleanList, hx, hcx, noneFreeList, noneFree_cleanValue x hx',
            noneFreeList_cleanList rest]

end

mutual

theorem dictEmptyFree_cleanValue : (v : PyVal) → dictEmptyFree (cleanValue v) = true
  | .none => rfl
  | .bool _ => rfl
  | .int _ => rfl
  | .float _ => rfl
  | .str _ => rfl
  | .obj _ _ => rfl
  | .dict kvs => by simp [cleanValue, dictEmptyFree, dictEmptyFreePairs_cleanPairs kvs]
  | .list xs => by simp [cleanValue, dictEmptyFree, dictEmptyFreeList_cleanList xs]
  | .tuple xs => by simp [cleanValue, dictEmptyFree, dictEmptyFreeList_cleanList xs]

theorem dictEmptyFreePairs_cleanPairs :
    (kvs : List (PyVal × PyVal)) → dictEmptyFreePairs (cleanPairs kvs) = true
  | [] => rfl
  | (k, v) :: rest => by
      by_cases hv : v.isNone = true
      · simp [cleanPairs, hv, dictEmptyFreePairs_cleanPairs rest]
      · by_cases hkeep : (!(cleanValue v).isNone && !(cleanValue v).isEmptyDict) = true
        · have hk := hkeep
          simp only [Bool.and_eq_true, Bool.not_eq_true'] at hk
          simp [cleanPairs, hv, hkeep, dictEmptyFreePairs, hk.1, hk.2, dictEmptyFree_cleanValue v,
            dictEmptyFreePairs_cleanPairs rest]
        · simp [cleanPairs, hv, hkeep, dictEmptyFreePairs_cleanPairs rest]

theorem dictEmptyFreeList_cleanList : (xs : List PyVal) → dictEmptyFreeList (cleanList xs) = true
  | [] => rfl
  | x :: rest => by
      by_cases hx : x.isNone = true
      · simp [cleanList, hx, dictEmptyFreeList_cleanList rest]
      · by_cases hcx : (cleanValue x).isNone = true
        · simp [cleanList, hx, hcx, dictEmptyFreeList_cleanList rest]
        · simp [cleanList, hx, hcx, dictEmptyFreeList, dictEmptyFree_cleanValue x,
            dictEmptyFreeList_cleanList rest]

end

theorem jsonSafe_cleanMetadataDict (v : PyVal) : jsonSafe (cleanMetadataDict v) = true := by
  cases v with
  | dict kvs => simp [cleanMetadataDict, jsonSafe, jsonSafePairs_cleanPairs kvs]
  | none => rfl
  | bool b => rfl
  | int n => rfl
  | float q => rfl
  | str s => rfl
  | list xs => rfl
  | tuple xs => rfl
  | obj attrs cls => rfl

theorem noneFree_cleanMetadataDict (v : PyVal) : noneFree (cleanMetadataDict v) = true := by
  cases v with
  | dict kvs => simp [cleanMetadataDict, noneFree, noneFreePairs_cleanPairs kvs]
  | none => rfl
  | bool b => rfl
  | int n => rfl
  | float q => rfl
  | str s => rfl
  | list xs => rfl
  | tuple xs => rfl
  | obj attrs cls => rfl

theorem dictEmptyFree_cleanMetadataDict (v : PyVal) : dictEmptyFree (cleanMetadataDict v) = true := by
  cases v with
  | dict kvs => simp [cleanMetadataDict, dictEmptyFree, dictEmptyFreePairs_cleanPairs kvs]
  | none => rfl
  | bool b => rfl
  | int n => rfl
  | float q => rfl
  | str s => rfl
  | list xs => rfl
  | tuple xs => rfl
  | obj attrs cls => rfl

/-! ## Helper lemmas about the Result Processor -/

theorem processSingleMatch_eq (m pm : PyVal) (h : processSingleMatch m = some pm) :
    ∃ sc, extractMatchScore m = some sc ∧
      pm = .dict [(.str "id", .str (extractMatchId m)), (.str "score", .float sc),
                  (.str "metadata", cleanMetadataDict (rawMetadata m))] := by
  unfold processSingleMatch at h
  cases hsc : extractMatchScore m with
  | none => rw [hsc] at h; cases h
  | some sc =>
    rw [hsc] at h
    cases h
    exact ⟨sc, rfl, rfl⟩

theorem processSingleMatch_canonical (m pm : PyVal) (h : processSingleMatch m = some pm) :
    isCanonicalRecord pm := by
  obtain ⟨sc, -, hpm⟩ := processSingleMatch_eq m pm h
  exact ⟨extractMatchId m, sc, cleanMetadataDict (rawMetadata m), hpm⟩

theorem jsonSafe_processSingleMatch (m pm : PyVal) (h : processSingleMatch m = some pm) :
    jsonSafe pm = true := by
  obtain ⟨sc, -, hpm⟩ := processSingleMatch_eq m pm h
  subst hpm
  simp [jsonSafe, jsonSafePairs, jsonKeySafe, jsonSafe_cleanMetadataDict]

theorem processMatchList_eq_filterMap (xs : List PyVal) :
    processMatchList xs = xs.filterMap processSingleMatch := by
  induction xs with
  | nil => rfl
  | cons m rest ih =>
    cases hm : processSingleMatch m <;>
      simp [processMatchList, List.filterMap_cons, hm, ih]

theorem validate_processMatchList (xs : List PyVal) :
    validateJsonSerialization (processMatchList xs) = true := by
  induction xs with
  | nil => rfl
  | cons m rest ih =>
    cases hm : processSingleMatch m with
    | none => simpa [processMatchList, hm] using ih
    | some pm =>
      simp [processMatchList, hm, validateJsonSerialization, jsonSafeList,
        jsonSafe_processSingleMatch m pm hm]
      simpa [validateJsonSerialization] using ih

theorem processQueryResults_ok_canonical (r : PyVal) (ms : List PyVal)
    (h : processQueryResults r = .ok ms) : ∀ x ∈ ms, isCanonicalRecord x := by
  unfold processQueryResults at h
  cases hex : extractMatches r with
  | error e =>
    simp only [hex] at h
    exact Except.noConfusion h
  | ok m =>
    simp only [hex] at h
    by_cases ht : m.pyTruthy = false
    · rw [if_pos ht] at h
      cases h
      intro x hx
      cases hx
    · rw [if_neg ht] at h
      cases hit : pyIterate m with
      | none =>
        simp only [hit] at h
        exact Except.noConfusion h
      | some xs =>
        simp only [hit, validate_processMatchList xs, if_pos] at h
        cases h
        intro x hx
        rw [processMatchList_eq_filterMap] at hx
        obtain ⟨a, -, ha⟩ := List.mem_filterMap.mp hx
        exact processSingleMatch_canonical a x ha

theorem processQueryResults_matches_list (xs : List PyVal) :
    processQueryResults (.dict [(.str "matches", .list xs)])
      = .ok (xs.filterMap processSingleMatch) := by
  cases xs with
  | nil => rfl
  | cons a as =>
    have hval : validateJsonSerialization (List.filterMap processSingleMatch (a :: as)) = true := by
      rw [← processMatchList_eq_filterMap]
      exact validate_processMatchList _
    have hex : extractMatches (.dict [(.str "matches", .list (a :: as))])
        = .ok (.list (a :: as)) := rfl
    simp [processQueryResults, hex, PyVal.pyTruthy, pyIterate,
      processMatchList_eq_filterMap, hval]

theorem processQueryResults_matches_attr (xs : List PyVal) (cls : String) :
    processQueryResults (.obj [("matches", .list xs)] cls)
      = .ok (xs.filterMap processSingleMatch) := by
  cases xs with
  | nil => rfl
  | cons a as =>
    have hval : validateJsonSerialization (List.filterMap processSingleMatch (a :: as)) = true := by
      rw [← processMatchList_eq_filterMap]
      exact validate_processMatchList _
    have hex : extractMatches (.obj [("matches", .list (a :: as))] cls)
        = .ok (.list (a :: as)) := rfl
    simp [processQueryResults, hex, PyVal.pyTruthy, pyIterate,
      processMatchList_eq_filterMap, hval]

/-! ## Claim theorems -/

/-- C2 (counterexample): the claim "for every input value, the Sanitizer's
output contains no empty nested mapping or empty nested sequence present
as a child" is false: cleaning the mapping with one key `a` bound to an
empty sequence keeps the empty sequence as a child of the output mapping
(the code only filters values equal to the empty dict, and an empty list
is not equal to an empty dict in Python). -/
theorem C2_counterexample :
    cleanMetadataDict (.dict [(.str "a", .list [])]) = .dict [(.str "a", .list [])] ∧
    emptyChildFree (cleanMetadataDict (.dict [(.str "a", .list [])])) = false :=
  ⟨rfl, rfl⟩

/-- C2 (amended): for every input value, the Sanitizer's output is
JSON-safe and contains no null values nested anywhere; a nested mapping
that cleans to an empty mapping is omitted from its mapping parent (no
mapping in the output has an empty-mapping value), but a nested sequence
that cleans to empty is kept in its parent, and an empty mapping inside a
sequence is kept. -/
theorem C2_cleaned_output_invariants (v : PyVal) :
    jsonSafe (cleanMetadataDict v) = true ∧
    noneFree (cleanMetadataDict v) = true ∧
    dictEmptyFree (cleanMetadataDict v) = true :=
  ⟨jsonSafe_cleanMetadataDict v, noneFree_cleanMetadataDict v, dictEmptyFree_cleanMetadataDict v⟩

/-- C3: the Metadata Sanitizer is idempotent: for every value `v`, cleaning
the result of cleaning `v` returns it unchanged, both for the entry point
`_clean_metadata_dict` and for the inner `_clean_value`. -/
theorem C3_sanitizer_idempotent (v : PyVal) :
    cleanMetadataDict (cleanMetadataDict v) = cleanMetadataDict v ∧
    cleanValue (cleanValue v) = cleanValue v := by
  refine ⟨?_, cleanValue_idem v⟩
  cases v with
  | dict kvs => simp [cleanMetadataDict, cleanPairs_idem kvs]
  | none => rfl
  | bool b => rfl
  | int n => rfl
  | float q => rfl
  | str s => rfl
  | list xs => rfl
  | tuple xs => rfl
  | obj attrs cls => rfl

/-- C4: for every non-empty (truthy) vector, `query_cocktails` invokes the
provider with `top_k = 5` when the given `top_k ≤ 0`, with `top_k = 1000`
when it exceeds 1000, and with the given `top_k` unchanged when it lies in
`[1, 1000]`; an out-of-range `top_k` is never an error. -/
theorem C4_topk_clamped (io : Int → PyVal → Except PyErr PyVal) (k : Int) (v : PyVal)
    (h : v.pyTruthy = true) :
    (k ≤ 0 → queryCocktails io k v = invokeIndexQuery io 5 v) ∧
    (k > 1000 → queryCocktails io k v = invokeIndexQuery io 1000 v) ∧
    (1 ≤ k → k ≤ 1000 → queryCocktails io k v = invokeIndexQuery io k v) := by
  refine ⟨fun hk => ?_, fun hk => ?_, fun hk1 hk2 => ?_⟩
  · simp [queryCocktails, h, hk]
  · have hk0 : ¬(k ≤ 0) := by omega
    simp [queryCocktails, h, hk0, hk]
  · have hk0 : ¬(k ≤ 0) := by omega
    have hkm : ¬(k > 1000) := by omega
    simp [queryCocktails, h, hk0, hkm]

/-- Witness for C4 at a concrete one-element vector and the spec's example
values `top_k = -3`, `5000` and an in-range `7`. -/
theorem C4_witness :
    queryCocktails ioOneMatch (-3) (.list [.float 1])
      = invokeIndexQuery ioOneMatch 5 (.list [.float 1]) ∧
    queryCocktails ioOneMatch 5000 (.list [.float 1])
      = invokeIndexQuery ioOneMatch 1000 (.list [.float 1]) ∧
    queryCocktails ioOneMatch 7 (.list [.float 1])
      = invokeIndexQuery ioOneMatch 7 (.list [.float 1]) :=
  ⟨(C4_topk_clamped ioOneMatch (-3) (.list [.float 1]) rfl).1 (by norm_num),
   (C4_topk_clamped ioOneMatch 5000 (.list [.float 1]) rfl).2.1 (by norm_num),
   (C4_topk_clamped ioOneMatch 7 (.list [.float 1]) rfl).2.2 (by norm_num) (by norm_num)⟩

/-- C5: for every `top_k` and every index provider, `query_cocktails` with
an empty vector returns the `None` "no results" sentinel without invoking
the provider (the result is the same for every provider `io`). -/
theorem C5_empty_vector_short_circuit (io : Int → PyVal → Except PyErr PyVal) (k : Int) :
    queryCocktails io k (.list []) = .ok .none := rfl

/-- C6: for every list of raw matches (delivered as a `matches` mapping key
or as a `matches` attribute), the Result Processor returns, in the original
order of the search response, exactly the canonical records of the matches
whose extraction succeeded (a match whose score fails float coercion is
dropped and processing continues); in particular, given two matches where
the second's score is the non-numeric string `"not_a_number"`, the result
contains exactly the first record. -/
theorem C6_per_match_isolation :
    (∀ xs : List PyVal,
      processQueryResults (.dict [(.str "matches", .list xs)])
        = .ok (xs.filterMap processSingleMatch)) ∧
    (∀ (xs : List PyVal) (cls : String),
      processQueryResults (.obj [("matches", .list xs)] cls)
        = .ok (xs.filterMap processSingleMatch)) ∧
    processQueryResults (.dict [(.str "matches", .list
      [.dict [(.str "id", .str "cocktail_1"), (.str "score", .float (95 / 100)),
              (.str "metadata", .dict [(.str "name", .str "Mojito")])],
       .dict [(.str "id", .str "cocktail_2"), (.str "score", .str "not_a_number"),
              (.str "metadata", .dict [(.str "name", .str "Daiquiri")])]])])
      = .ok [.dict [(.str "id", .str "cocktail_1"), (.str "score", .float (95 / 100)),
              (.str "metadata", .dict [(.str "name", .str "Mojito")])]] :=
  ⟨processQueryResults_matches_list, processQueryResults_matches_attr, rfl⟩

/-- C7 (counterexample): the claim that a response whose `matches` field or
key is absent yields an empty result is false: a mapping without a
`matches` key (here the empty mapping) raises the `RAGError` format error
instead of yielding an empty result. -/
theorem C7_counterexample :
    extractMatches (.dict []) = .error (.rag "Unexpected results format: dict") :=
  rfl

/-- C7 (amended): the Result Processor's match extraction accepts either an
attribute named `matches` or a mapping key `"matches"`; a `matches`
field/key that is present but null yields an empty result; a response with
no `matches` attribute and no `matches` key — a mapping without the key,
or a bare string, or any other shape — raises a format error naming the
unexpected type. -/
theorem C7_extract_matches_behaviour :
    (∀ (attrs : List (String × PyVal)) (cls : String),
      lookupStr attrs "matches" = some PyVal.none →
        extractMatches (.obj attrs cls) = .ok (.list []) ∧
        processQueryResults (.obj attrs cls) = .ok []) ∧
    (∀ kvs : List (PyVal × PyVal),
      dictGetStr kvs "matches" = some PyVal.none →
        extractMatches (.dict kvs) = .ok (.list []) ∧
        processQueryResults (.dict kvs) = .ok []) ∧
    (∀ s : String, extractMatches (.str s) = .error (.rag "Unexpected results format: str")) ∧
    (∀ (attrs : List (String × PyVal)) (cls : String),
      lookupStr attrs "matches" = Option.none →
        extractMatches (.obj attrs cls) = .error (.rag ("Unexpected results format: " ++ cls))) ∧
    (∀ kvs : List (PyVal × PyVal),
      dictGetStr kvs "matches" = Option.none →
        extractMatches (.dict kvs) = .error (.rag "Unexpected results format: dict")) := by
  refine ⟨fun attrs cls h => ?_, fun kvs h => ?_, fun s => rfl, fun attrs cls h => ?_,
    fun kvs h => ?_⟩
  · have hex : extractMatches (.obj attrs cls) = .ok (.list []) := by
      simp [extractMatches, h, PyVal.pyOr, PyVal.pyTruthy]
    exact ⟨hex, by simp [processQueryResults, hex, PyVal.pyTruthy]⟩
  · have hex : extractMatches (.dict kvs) = .ok (.list []) := by
      simp [extractMatches, h, PyVal.pyOr, PyVal.pyTruthy]
    exact ⟨hex, by simp [processQueryResults, hex, PyVal.pyTruthy]⟩
  · simp [extractMatches, h, PyVal.pyTypeName]
  · simp [extractMatches, h]

/-- Witness for C7 at concrete responses: a null `matches` attribute and a
null `matches` key yield empty results, and a bare string raises the
format error. -/
theorem C7_witness :
    extractMatches (.obj [("matches", PyVal.none)] "QueryResponse") = .ok (.list []) ∧
    processQueryResults (.obj [("matches", PyVal.none)] "QueryResponse") = .ok [] ∧
    processQueryResults (.dict [(.str "matches", PyVal.none)]) = .ok [] ∧
    extractMatches (.str "oops") = .error (.rag "Unexpected results format: str") :=
  ⟨(C7_extract_matches_behaviour.1 [("matches", PyVal.none)] "QueryResponse" rfl).1,
   (C7_extract_matches_behaviour.1 [("matches", PyVal.none)] "QueryResponse" rfl).2,
   (C7_extract_matches_behaviour.2.1 [(.str "matches", PyVal.none)] rfl).2,
   C7_extract_matches_behaviour.2.2.1 "oops"⟩

/-- C8 (counterexample): the claim that every canonical match's metadata
field is a mapping is false: a raw match whose `metadata` key holds the
string `"hello"` produces a record whose metadata field is that string
(the Sanitizer returns non-mapping input serialized as a scalar, not
wrapped in a mapping). -/
theorem C8_counterexample :
    processSingleMatch (.dict [(.str "metadata", .str "hello")]) =
      some (.dict [(.str "id", .str ""), (.str "score", .float 0),
                   (.str "metadata", .str "hello")]) ∧
    PyVal.isDict (.str "hello") = false :=
  ⟨rfl, rfl⟩

/-- C8 (amended): every canonical match produced by the Result Processor
has a string id (via `str`, defaulting to `""` when absent), a float score
(defaulting to `0.0` when absent), and a metadata field equal to the
Sanitizer's output on the selected raw metadata (defaulting to the empty
mapping when absent); the metadata field is a mapping whenever the raw
metadata is a mapping (in particular when it was defaulted), but a present
non-mapping metadata value yields its sanitized scalar form. -/
theorem C8_canonical_fields :
    (∀ m pm : PyVal, processSingleMatch m = some pm →
      ∃ sc, extractMatchScore m = some sc ∧
        pm = .dict [(.str "id", .str (extractMatchId m)), (.str "score", .float sc),
                    (.str "metadata", cleanMetadataDict (rawMetadata m))]) ∧
    (∀ d : PyVal, PyVal.isDict d = true → PyVal.isDict (cleanMetadataDict d) = true) ∧
    (∀ kvs : List (PyVal × PyVal),
      dictGetStr kvs "id" = Option.none → extractMatchId (.dict kvs) = "") ∧
    (∀ kvs : List (PyVal × PyVal),
      dictGetStr kvs "score" = Option.none → extractMatchScore (.dict kvs) = some 0) ∧
    (∀ kvs : List (PyVal × PyVal),
      dictGetStr kvs "metadata" = Option.none → rawMetadata (.dict kvs) = .dict []) := by
  refine ⟨processSingleMatch_eq, fun d hd => ?_, fun kvs h => ?_, fun kvs h => ?_,
    fun kvs h => ?_⟩
  · cases d <;> simp_all [PyVal.isDict, cleanMetadataDict]
  · simp [extractMatchId, h]
  · simp [extractMatchScore, h]
  · simp [rawMetadata, h]

/-- Witness for C8 at a concrete raw match carrying a mapping metadata, and
at the empty mapping for the default/mapping-preservation conjuncts. -/
theorem C8_witness :
    (∃ sc, extractMatchScore rmSample = some sc ∧
      pmSample = .dict [(.str "id", .str (extractMatchId rmSample)), (.str "score", .float sc),
                  (.str "metadata", cleanMetadataDict (rawMetadata rmSample))]) ∧
    PyVal.isDict (cleanMetadataDict (.dict [(.str "name", .str "Mojito")])) = true ∧
    extractMatchId (.dict []) = "" ∧
    extractMatchScore (.dict []) = some 0 ∧
    rawMetadata (.dict []) = .dict [] :=
  ⟨C8_canonical_fields.1 rmSample pmSample rfl,
   C8_canonical_fields.2.1 (.dict [(.str "name", .str "Mojito")]) rfl,
   C8_canonical_fields.2.2.1 [] rfl,
   C8_canonical_fields.2.2.2.1 [] rfl,
   C8_canonical_fields.2.2.2.2 [] rfl⟩

/-- C10: a raw match that is not a mapping and carries none of the
`id`/`score`/`metadata` attributes (for example a bare string or `None`)
is not dropped: its extraction succeeds and yields the all-default
canonical record with empty id, zero score and empty metadata. -/
theorem C10_default_record (m : PyVal)
    (hd : m.isDict = false)
    (h1 : lookupStr m.attrTable "id" = Option.none)
    (h2 : lookupStr m.attrTable "score" = Option.none)
    (h3 : lookupStr m.attrTable "metadata" = Option.none) :
    processSingleMatch m = some (.dict [(.str "id", .str ""), (.str "score", .float 0),
      (.str "metadata", .dict [])]) := by
  cases m with
  | dict kvs => simp [PyVal.isDict] at hd
  | obj attrs cls =>
    simp only [PyVal.attrTable] at h1 h2 h3
    simp [processSingleMatch, extractMatchScore, extractMatchId, extractAndCleanMetadata,
      rawMetadata, h1, h2, h3, cleanMetadataDict, cleanPairs]
  | none => rfl
  | bool b => rfl
  | int n => rfl
  | float q => rfl
  | str s => rfl
  | list xs => rfl
  | tuple xs => rfl

/-- Witness for C10 at the bare string `"oops"` (no attributes, not a
mapping). -/
theorem C10_witness :
    processSingleMatch (.str "oops") = some (.dict [(.str "id", .str ""),
      (.str "score", .float 0), (.str "metadata", .dict [])]) :=
  C10_default_record (.str "oops") rfl rfl rfl rfl

/-- C9: a null or empty embedding vector returned by the embedding gateway
without raising is treated as failure: for every query and every index
provider, `run_cocktail_rag` raises the taxonomy error `RAGError` (so no
matches are returned). -/
theorem C9_null_or_empty_embedding_fails
    (eo : String → Except PyErr PyVal) (io : Int → PyVal → Except PyErr PyVal)
    (q : String) (k : Int)
    (h : eo (pyStrip q) = .ok .none ∨ eo (pyStrip q) = .ok (.list [])) :
    ∃ m, runCocktailRag eo io q k = .error (.rag m) := by
  cases hval : validateQueryFails q with
  | true => exact ⟨"Query must be a non-empty string", by simp [runCocktailRag, hval]⟩
  | false =>
    cases h with
    | inl h1 =>
      have hemb : createQueryEmbedding eo q =
          .error (.rag "Embedding creation failed: Failed to create embedding for query") := by
        simp [createQueryEmbedding, h1, PyVal.isNone, PyErr.msg]
      exact ⟨"Embedding creation failed: Failed to create embedding for query",
        by simp [runCocktailRag, hval, hemb]⟩
    | inr h2 =>
      have hemb : createQueryEmbedding eo q = .ok (.list []) := by
        simp [createQueryEmbedding, h2, PyVal.isNone, PyVal.pyLen]
      have hdb : queryVectorDatabase io (.list []) k =
          .error (.rag "Vector database query failed: No results returned from vector database") := by
        simp [queryVectorDatabase, queryCocktails, PyVal.pyTruthy, PyVal.isNone, PyErr.msg]
      exact ⟨"Vector database query failed: No results returned from vector database",
        by simp [runCocktailRag, hval, hemb, hdb]⟩

/-- Witness for C9 with a gateway returning `None` for the query
`"mint drink"`. -/
theorem C9_witness :
    ∃ m, runCocktailRag eoNone ioOneMatch "mint drink" 5 = .error (.rag m) :=
  C9_null_or_empty_embedding_fails eoNone ioOneMatch "mint drink" 5 (Or.inl rfl)

/-- C1: for every query that is non-empty after stripping, and for every
behaviour of the embedding and index gateways, `run_cocktail_rag` either
raises the taxonomy error `RAGError` or returns a list of canonical
`\x7bid, score, metadata\x7d` records; it never returns `None` (the
successful value is always a list, and every element has the canonical
shape). -/
theorem C1_runQuery_returns_canonical_or_rag
    (eo : String → Except PyErr PyVal) (io : Int → PyVal → Except PyErr PyVal)
    (q : String) (k : Int) (_hq : pyStrip q ≠ "") :
    (∃ m, runCocktailRag eo io q k = .error (.rag m)) ∨
    (∃ ms, runCocktailRag eo io q k = .ok (.list ms) ∧ ∀ r ∈ ms, isCanonicalRecord r) := by
  cases hval : validateQueryFails q with
  | true => exact .inl ⟨"Query must be a non-empty string", by simp [runCocktailRag, hval]⟩
  | false =>
    cases hemb : createQueryEmbedding eo q with
    | error e =>
      cases e with
      | rag m => exact .inl ⟨m, by simp [runCocktailRag, hval, hemb]⟩
      | exc m => exact .inl ⟨"RAG processing failed: " ++ m,
          by simp [runCocktailRag, hval, hemb]⟩
    | ok emb =>
      cases hdb : queryVectorDatabase io emb k with
      | error e =>
        cases e with
        | rag m => exact .inl ⟨m, by simp [runCocktailRag, hval, hemb, hdb]⟩
        | exc m => exact .inl ⟨"RAG processing failed: " ++ m,
            by simp [runCocktailRag, hval, hemb, hdb]⟩
      | ok res =>
        cases hp : processQueryResults res with
        | error e =>
          cases e with
          | rag m => exact .inl ⟨m, by simp [runCocktailRag, hval, hemb, hdb, hp]⟩
          | exc m => exact .inl ⟨"RAG processing failed: " ++ m,
              by simp [runCocktailRag, hval, hemb, hdb, hp]⟩
        | ok ms =>
          exact .inr ⟨ms, by simp [runCocktailRag, hval, hemb, hdb, hp],
            processQueryResults_ok_canonical res ms hp⟩

/-- Witness for C1 at the query `"mint drink"` with a 3-dimensional
embedding gateway and a one-match index provider. -/
theorem C1_witness :
    (∃ m, runCocktailRag eoVec ioOneMatch "mint drink" 5 = .error (.rag m)) ∨
    (∃ ms, runCocktailRag eoVec ioOneMatch "mint drink" 5 = .ok (.list ms) ∧
      ∀ r ∈ ms, isCanonicalRecord r) :=
  C1_runQuery_returns_canonical_or_rag eoVec ioOneMatch "mint drink" 5 (by decide)
